import Mathlib

/-!
Shallow embedding of `src/exercises/deploy.go` (package main): a scripted
rolling update and rollback of the `redis` deployment.  Pure data and
functions mirror the Go code; the external cluster (workload store and pod
health observer) is modelled by explicit scripts of responses.
-/

namespace Deploy

/-- Readiness flag of one container of a pod, mirroring
`k8s.io/api/core/v1.ContainerStatus.Ready`. -/
structure ContainerStatus where
  ready : Bool
deriving DecidableEq, Repr

/-- A pod (instance) of the workload, with its container readiness flags,
mirroring the fields of `corev1.Pod` read by `podContainersRunning`. -/
structure Pod where
  name : String
  containerStatuses : List ContainerStatus
deriving DecidableEq, Repr

/-- A container template, mirroring the fields of the deployment's
container spec used by `deploy.go` and `deployments/redis.yml`. -/
structure Container where
  name : String
  image : String
  ports : List Nat
deriving DecidableEq, Repr

/-- Pod spec of the deployment template (`Spec.Template.Spec`). -/
structure PodSpec where
  containers : List Container
deriving DecidableEq, Repr

/-- Pod template (`Spec.Template`): labels plus the pod spec. -/
structure PodTemplateSpec where
  labels : List (String × String)
  spec : PodSpec
deriving DecidableEq, Repr

/-- Deployment spec (`Spec`): replica count and the pod template. -/
structure DeploymentSpec where
  replicas : Nat
  template : PodTemplateSpec
deriving DecidableEq, Repr

/-- Object metadata: the workload name. -/
structure ObjectMeta where
  name : String
deriving DecidableEq, Repr

/-- The desired-state descriptor, mirroring `apiv1.Deployment`. -/
structure Deployment where
  metadata : ObjectMeta
  spec : DeploymentSpec
deriving DecidableEq, Repr

/-- The constant `deployRunningThreshold = time.Second * 10`, in seconds. -/
def deployRunningThreshold : Nat := 10

/-- The constant `deployRunningCheckInterval = time.Second * 2`, in seconds. -/
def deployRunningCheckInterval : Nat := 2

/-- `podContainersRunning` (deploy.go lines 109-125): lists the pods of the
app; a list error is returned as `(false, some e)`; otherwise the nested
loops return `false` at the first non-ready container status and `true`
when none is found (so an empty pod list yields `true`).  The observer's
response is the `Except` argument. -/
def podContainersRunning (r : Except String (List Pod)) : Bool × Option String :=
  match r with
  | Except.error e => (false, some e)
  | Except.ok pods =>
    (pods.all fun item => item.containerStatuses.all fun status => status.ready, none)

/-- Result of the convergence wait: `success` is the `nil` return,
`timeout` the error `Failed to get all running containers`. -/
inductive WaitResult where
  | success
  | timeout
deriving DecidableEq, Repr

/-- The loop body of `waitForPodContainersRunning` (deploy.go lines 89-105)
over a script of observer responses, one per tick.  Each iteration first
blocks for `interval` (the timer at line 90), so the tick happens at time
`now + interval`; the readiness check comes first (lines 93-96), a query
error is only logged (lines 98-100), and only then is the deadline compared
with the current time (lines 102-104).  Returns the result paired with the
elapsed time at return; `none` models the loop still running when the
script is exhausted. -/
def waitLoop (deadline interval : Nat) :
    Nat → List (Except String (List Pod)) → Option (WaitResult × Nat)
  | _, [] => none
  | now, r :: rest =>
    if (podContainersRunning r).fst then some (WaitResult.success, now + interval)
    else if deadline < now + interval then some (WaitResult.timeout, now + interval)
    else waitLoop deadline interval (now + interval) rest

/-- `waitForPodContainersRunning` (deploy.go lines 86-107): the deadline is
`time.Now().Add(deployRunningThreshold)`, i.e. `deployRunningThreshold`
from a start time of `0`. -/
def waitForPodContainersRunning (obs : List (Except String (List Pod))) :
    Option (WaitResult × Nat) :=
  waitLoop deployRunningThreshold deployRunningCheckInterval 0 obs

/-- Outcome of the `deploy` helper (deploy.go lines 72-84): `ok` is a `nil`
return, `conflictExhausted` the conflict error returned by
`retry.RetryOnConflict` when the retry budget is spent, `storeErr` a
non-conflict update error returned unretried, and `panicked` the `panic`
raised when `Get` fails inside the retry body (line 76). -/
inductive DeployOutcome where
  | ok
  | conflictExhausted
  | storeErr (e : String)
  | panicked (e : String)
deriving DecidableEq, Repr

/-- The workload store record: the descriptor plus its version token
(`resourceVersion`), bumped by every committed write. -/
structure Store where
  dep : Deployment
  version : Nat
deriving DecidableEq, Repr

/-- What the environment does during one read-transform-write attempt of
`deploy`: `quiet` lets the update commit; `write d` is a concurrent writer
committing `d` between our read and our write, so our write is rejected as
a stale-version conflict; `getFail`/`updateFail` are injected non-conflict
failures of the read and of the write. -/
inductive Interference where
  | quiet
  | write (d : Deployment)
  | getFail (e : String)
  | updateFail (e : String)
deriving DecidableEq, Repr

/-- `retry.DefaultRetry.Steps = 5`: the bound on read-transform-write
attempts made by `retry.RetryOnConflict`. -/
def retryBudget : Nat := 5

/-- One attempt of the retry body of `deploy` (deploy.go lines 73-83),
iterated by `retry.RetryOnConflict(retry.DefaultRetry, ...)` (semantics of
`k8s.io/client-go/util/retry`): `Get` the latest descriptor (a failure
panics, line 76), apply `op`, then `Update`; a conflict re-runs the body
against the re-read descriptor while budget remains, and when the last
attempt also conflicts the conflict error is returned (`conflictExhausted`);
any other update error is returned at once.  An exhausted script means no
interference (`quiet`). -/
def deployLoop (op : Deployment → Deployment) :
    Nat → Store → List Interference → DeployOutcome × Store
  | 0, s, _ => (DeployOutcome.conflictExhausted, s)
  | n + 1, s, script =>
    match script with
    | [] => (DeployOutcome.ok, ⟨op s.dep, s.version + 1⟩)
    | Interference.quiet :: _ => (DeployOutcome.ok, ⟨op s.dep, s.version + 1⟩)
    | Interference.getFail e :: _ => (DeployOutcome.panicked e, s)
    | Interference.updateFail e :: _ => (DeployOutcome.storeErr e, s)
    | Interference.write d :: rest =>
      match n with
      | 0 => (DeployOutcome.conflictExhausted, ⟨d, s.version + 1⟩)
      | m + 1 => deployLoop op (m + 1) ⟨d, s.version + 1⟩ rest

/-- `deploy` (deploy.go lines 72-84) with the `retry.DefaultRetry` budget. -/
def deploy (op : Deployment → Deployment) (s : Store) (script : List Interference) :
    DeployOutcome × Store :=
  deployLoop op retryBudget s script

/-- The transform shape used by both mutations of `main`:
`deployment.Spec.Template.Spec.Containers[0].Image = img` (deploy.go lines
47 and 60) rewrites the image of the first container template.  (On an
empty container slice the Go indexing would panic; theorems about
executions carry a non-empty-containers hypothesis where the image is
touched.) -/
def setImage (img : String) (d : Deployment) : Deployment :=
  { d with spec := { d.spec with template := { d.spec.template with spec :=
    { d.spec.template.spec with containers :=
      match d.spec.template.spec.containers with
      | [] => []
      | c :: rest => { c with image := img } :: rest } } } }

/-- The image of the first container template,
`d.Spec.Template.Spec.Containers[0].Image`, as an `Option`. -/
def containerImage0 (d : Deployment) : Option String :=
  d.spec.template.spec.containers.head?.map Container.image

/-- The literal image set by the forward update (deploy.go line 47). -/
def newImage : String := "redis:doesntexist"

/-- The environment of one run of `main`: the scripted behaviour of the
workload store and of the pod health observer at each external interaction
`main` makes, in program order. -/
structure Env where
  getFailure : Option String
  precheckObs : Except String (List Pod)
  forwardScript : List Interference
  forwardObs : List (Except String (List Pod))
  rollbackScript : List Interference
  rollbackObs : List (Except String (List Pod))
deriving Repr

/-- Terminal outcome of `main` (deploy.go lines 22-70).  Every `panic` of
the Go program is modelled as a distinct terminal constructor:
`getPanic` (line 38), `preconditionFailed` (line 43), the two deploy
panics (lines 49 and 62), and `rollbackWaitPanic` (line 67).
`completed b` is reaching line 69 (`Rolled back successfully!`), with `b`
recording whether line 55 (`Deploy successful`) was printed.  `diverged`
models a wait loop that outlives its observation script. -/
inductive Outcome where
  | getPanic (e : String)
  | preconditionFailed
  | forwardDeployPanic (o : DeployOutcome)
  | rollbackDeployPanic (o : DeployOutcome)
  | rollbackWaitPanic
  | completed (forwardOk : Bool)
  | diverged
deriving DecidableEq, Repr

/-- Result of a run of `main`: its outcome, the final workload store
record, and how many times the mutator `deploy` was invoked. -/
structure MainResult where
  outcome : Outcome
  store : Store
  mutatorCalls : Nat
deriving DecidableEq, Repr

/-- `main` (deploy.go lines 22-70), from the first `Get` on: read
`originalDeployment` (panic on failure, lines 36-39); pre-check
`podContainersRunning` and panic unless it returned `(true, nil)` (lines
42-44); `deploy` the `newImage` transform (panic on error, lines 46-50);
wait for convergence (line 52) and note whether it succeeded (lines
54-56); then unconditionally `deploy` the transform restoring
`originalDeployment`'s first container image (lines 59-63); wait again and
panic on failure (lines 65-68). -/
def mainRun (s0 : Store) (env : Env) : MainResult :=
  match env.getFailure with
  | some e => ⟨Outcome.getPanic e, s0, 0⟩
  | none =>
    let original := s0.dep
    let pre := podContainersRunning env.precheckObs
    if pre.fst && pre.snd.isNone then
      match deploy (setImage newImage) s0 env.forwardScript with
      | (DeployOutcome.ok, s1) =>
        match waitForPodContainersRunning env.forwardObs with
        | none => ⟨Outcome.diverged, s1, 1⟩
        | some (r1, _) =>
          let forwardOk := match r1 with
            | WaitResult.success => true
            | WaitResult.timeout => false
          match deploy (setImage ((containerImage0 original).getD "")) s1
              env.rollbackScript with
          | (DeployOutcome.ok, s2) =>
            match waitForPodContainersRunning env.rollbackObs with
            | none => ⟨Outcome.diverged, s2, 2⟩
            | some (WaitResult.success, _) => ⟨Outcome.completed forwardOk, s2, 2⟩
            | some (WaitResult.timeout, _) => ⟨Outcome.rollbackWaitPanic, s2, 2⟩
          | (o, s2) => ⟨Outcome.rollbackDeployPanic o, s2, 2⟩
      | (o, s1) => ⟨Outcome.forwardDeployPanic o, s1, 1⟩
    else ⟨Outcome.preconditionFailed, s0, 0⟩

/-! Concrete sample data for witnesses and counterexamples, following
`deployments/redis.yml`. -/

/-- The container template of `redis.yml`. -/
def redisContainer : Container := ⟨"redis", "redis:3", [6379]⟩

/-- The deployment described by `redis.yml`. -/
def redisDeployment : Deployment :=
  ⟨⟨"redis"⟩, ⟨2, ⟨[("app", "redis")], ⟨[redisContainer]⟩⟩⟩⟩

/-- A store holding the `redis.yml` deployment at version 0. -/
def redisStore : Store := ⟨redisDeployment, 0⟩

/-- A pod whose only container is ready. -/
def podReady : Pod := ⟨"redis-abc", [⟨true⟩]⟩

/-- A pod whose only container is not ready. -/
def podNotReady : Pod := ⟨"redis-xyz", [⟨false⟩]⟩

/-- An environment in which everything goes right: healthy baseline, no
interference on either mutation, immediate convergence both times. -/
def envAllGood : Env :=
  ⟨none, Except.ok [podReady, podReady], [], [Except.ok [podReady, podReady]],
    [], [Except.ok [podReady, podReady]]⟩

/-- An environment with an unhealthy baseline: one of the two instances is
not ready at the pre-check. -/
def envPrecheckFail : Env :=
  ⟨none, Except.ok [podReady, podNotReady], [], [], [], []⟩

/-- An environment whose rollback mutation sees one concurrency conflict
before committing. -/
def envRollbackQuiet : Env :=
  ⟨none, Except.ok [podReady], [], [Except.ok [podReady]],
    [Interference.quiet], [Except.ok [podReady]]⟩

/-- The claimed property that on forward-verification success the
controller stops after the forward mutation and never invokes the mutator
with the rollback transform. -/
def claimNoRollbackOnSuccess : Prop :=
  ∀ (s0 : Store) (env : Env) (t : Nat),
    waitForPodContainersRunning env.forwardObs = some (WaitResult.success, t) →
    (mainRun s0 env).mutatorCalls ≤ 1

/-- The claimed property that the health check reports converged iff the
instance set is non-empty and every instance reports every container flag
ready. -/
def claimConvergedIffNonemptyAllReady : Prop :=
  ∀ pods : List Pod,
    ((podContainersRunning (Except.ok pods)).fst = true ↔
      pods ≠ [] ∧ ∀ p ∈ pods, ∀ st ∈ p.containerStatuses, st.ready = true)

/-- The claimed property that every non-conflict read or write failure of
the mutate cycle is surfaced to the caller as a returned `storeErr`
outcome (data, never a panic). -/
def claimFailuresSurfacedAsData : Prop :=
  ∀ (op : Deployment → Deployment) (s : Store) (e : String)
    (rest : List Interference) (i : Interference),
    (i = Interference.getFail e ∨ i = Interference.updateFail e) →
    (deploy op s (i :: rest)).fst = DeployOutcome.storeErr e

/-! Lemmas about the convergence wait loop. -/

/-- An observer error on a tick strictly before the deadline does not
terminate the loop: the iteration reduces to the loop on the remaining
ticks. -/
theorem waitLoop_error_step (d i now : Nat) (e : String)
    (rest : List (Except String (List Pod))) (h : now + i ≤ d) :
    waitLoop d i now (Except.error e :: rest) = waitLoop d i (now + i) rest := by
  simp [waitLoop, podContainersRunning, Nat.not_lt.mpr h]

/-- The loop returns `timeout` exactly when some tick `k` observes a
not-yet-converged (or failed) read at the first tick time past the
deadline, with every earlier tick also unconverged. -/
theorem waitLoop_timeout_iff (d i : Nat) (obs : List (Except String (List Pod))) :
    ∀ now, now ≤ d →
    ((∃ t, waitLoop d i now obs = some (WaitResult.timeout, t)) ↔
      ∃ k, k < obs.length
        ∧ ((obs.take (k + 1)).all fun r => !(podContainersRunning r).fst) = true
        ∧ now + k * i ≤ d ∧ d < now + (k + 1) * i) := by
  induction obs with
  | nil => intro now _; simp [waitLoop]
  | cons r rest ih =>
    intro now hnow
    by_cases hr : (podContainersRunning r).fst
    · constructor
      · rintro ⟨t, ht⟩
        simp [waitLoop, hr] at ht
      · rintro ⟨k, -, hall, -, -⟩
        simp [List.take_succ_cons, List.all_cons, hr] at hall
    · by_cases hd : d < now + i
      · constructor
        · intro _
          refine ⟨0, by simp, ?_, by simpa using hnow, by simpa using hd⟩
          simp [List.take_succ_cons, List.all_cons, hr]
        · intro _
          exact ⟨now + i, by simp [waitLoop, hr, hd]⟩
      · have hd' : now + i ≤ d := Nat.not_lt.mp hd
        have hrec : waitLoop d i now (r :: rest) = waitLoop d i (now + i) rest := by
          simp [waitLoop, hr, hd]
        rw [hrec, ih (now + i) hd']
        constructor
        · rintro ⟨k, hk, hall, h1, h2⟩
          refine ⟨k + 1, by simpa using hk, ?_, ?_, ?_⟩
          · simp [List.take_succ_cons, List.all_cons, hr, hall]
          · rw [Nat.succ_mul]; omega
          · rw [Nat.succ_mul]; omega
        · rintro ⟨k, hk, hall, h1, h2⟩
          cases k with
          | zero => simp at h2; omega
          | succ k' =>
            refine ⟨k', by simpa using hk, ?_, ?_, ?_⟩
            · simp only [List.take_succ_cons, List.all_cons] at hall
              exact (Bool.and_eq_true_iff.mp hall).2
            · rw [Nat.succ_mul] at h1; omega
            · rw [Nat.succ_mul] at h2; omega

/-! Lemmas about the conflict-retrying mutator. -/

/-- A run of the retry body that hits `ds` successive concurrency
conflicts, all within the attempt budget, then commits: the transform is
applied exactly once, to the most recently written descriptor, and the
version advances once per committed write. -/
theorem deployLoop_conflicts_ok (op : Deployment → Deployment) :
    ∀ (ds : List Deployment) (n : Nat) (s : Store) (rest : List Interference),
      ds.length < n →
      deployLoop op n s (ds.map Interference.write ++ Interference.quiet :: rest)
        = (DeployOutcome.ok, ⟨op (ds.getLastD s.dep), s.version + ds.length + 1⟩) := by
  intro ds
  induction ds with
  | nil =>
    intro n s rest hn
    match n, hn with
    | n + 1, _ => simp [deployLoop, List.getLastD]
  | cons d ds ih =>
    intro n s rest hn
    match n, hn with
    | n + 1, hn =>
      have hlen : ds.length < n := by simpa using hn
      match n, hlen with
      | m + 1, hlen =>
        simp only [List.map_cons, List.cons_append, deployLoop, List.append_eq]
        rw [ih (m + 1) ⟨d, s.version + 1⟩ rest hlen, List.getLastD_cons]
        simp [List.length_cons]
        omega

/-- A run whose first `n` attempts (the whole budget) all hit concurrency
conflicts returns the conflict error. -/
theorem deployLoop_conflicts_exhausted (op : Deployment → Deployment) :
    ∀ (ds : List Deployment) (n : Nat) (s : Store) (rest : List Interference),
      1 ≤ n → n ≤ ds.length →
      (deployLoop op n s (ds.map Interference.write ++ rest)).fst
        = DeployOutcome.conflictExhausted := by
  intro ds
  induction ds with
  | nil =>
    intro n s rest h1 h2
    exact absurd (Nat.le_trans h1 h2) (by simp)
  | cons d ds ih =>
    intro n s rest h1 h2
    match n, h1 with
    | 1, _ => simp [deployLoop]
    | n + 2, _ =>
      have hlen : n + 1 ≤ ds.length := by simpa using h2
      simp only [List.map_cons, List.cons_append, deployLoop, List.append_eq]
      exact ih (n + 1) ⟨d, s.version + 1⟩ rest (Nat.succ_le_succ (Nat.zero_le n)) hlen

/-- Setting the first container image leaves a descriptor's first
container image equal to the image set. -/
theorem containerImage0_setImage (img : String) (d : Deployment)
    (c : Container) (cs : List Container)
    (h : d.spec.template.spec.containers = c :: cs) :
    containerImage0 (setImage img d) = some img := by
  simp [containerImage0, setImage, h]

/-! Claim theorems. -/

/-- C1, counterexample: the claim that a successful forward verification
prevents the rollback mutation is false — in the all-good environment the
forward wait succeeds, yet `main` still invokes the mutator a second time
with the rollback transform. -/
theorem claim_no_rollback_on_success_false : ¬ claimNoRollbackOnSuccess := by
  intro h
  exact absurd (h redisStore envAllGood 2 (by decide)) (by decide)

/-- C1, amended: in every execution that passes the pre-check, applies the
forward mutation and completes the forward verification — with either
result — `main` invokes the mutator exactly twice: the rollback transform
is applied unconditionally, not only on verification failure. -/
theorem rollback_always_applied (s0 : Store) (env : Env) (s1 : Store)
    (r : WaitResult) (t : Nat)
    (hget : env.getFailure = none)
    (hpre : podContainersRunning env.precheckObs = (true, none))
    (hfd : deploy (setImage newImage) s0 env.forwardScript = (DeployOutcome.ok, s1))
    (hw : waitForPodContainersRunning env.forwardObs = some (r, t)) :
    (mainRun s0 env).mutatorCalls = 2 := by
  unfold mainRun
  rw [hget]
  simp only [hpre, hfd, hw, Option.isNone_none, Bool.and_true, if_true]
  rcases hrb : deploy (setImage ((containerImage0 s0.dep).getD "")) s1 env.rollbackScript
    with ⟨o2, s2⟩
  rcases hw2 : waitForPodContainersRunning env.rollbackObs with - | ⟨r2, t2⟩
  · cases o2 <;> simp [hrb, hw2]
  · cases o2 <;> cases r2 <;> simp [hrb, hw2]

/-- C1, witness: the amended theorem at the all-good environment. -/
theorem rollback_always_applied_witness :
    waitForPodContainersRunning envAllGood.forwardObs = some (WaitResult.success, 2)
    ∧ (mainRun redisStore envAllGood).mutatorCalls = 2 :=
  ⟨by decide,
    rollback_always_applied redisStore envAllGood
      ⟨setImage newImage redisDeployment, 1⟩ WaitResult.success 2
      rfl (by decide) (by decide) (by decide)⟩

/-- C2, counterexample: the claim that convergence requires a non-empty
instance set is false — on an empty pod list the health check reports
converged. -/
theorem claim_converged_iff_nonempty_false : ¬ claimConvergedIffNonemptyAllReady := by
  intro h
  exact ((h []).mp (by decide)).1 rfl

/-- C2, amended: the health check reports converged iff every listed
instance reports all of its container flags ready — vacuously true for an
empty instance set — and consequently with zero instances the waiter
reports success at the very first poll, long before the deadline. -/
theorem converged_iff_all_ready :
    (∀ pods : List Pod,
      ((podContainersRunning (Except.ok pods)).fst = true ↔
        ∀ p ∈ pods, ∀ st ∈ p.containerStatuses, st.ready = true))
    ∧ ∀ rest : List (Except String (List Pod)),
        waitForPodContainersRunning (Except.ok [] :: rest)
          = some (WaitResult.success, deployRunningCheckInterval) := by
  constructor
  · intro pods
    simp [podContainersRunning, List.all_eq_true]
  · intro rest
    simp [waitForPodContainersRunning, waitLoop, podContainersRunning,
      deployRunningCheckInterval]

/-- C3, counterexample: the claim that every non-conflict read/write
failure is returned as a `storeErr` outcome is false — a read (`Get`)
failure makes the retry body panic instead. -/
theorem claim_failures_as_data_false : ¬ claimFailuresSurfacedAsData := by
  intro h
  exact absurd
    (h (fun d => d) redisStore "boom" [] (Interference.getFail "boom") (Or.inl rfl))
    (by decide)

/-- C3, amended: a non-conflict write failure is not retried and is
returned immediately to the caller as a `storeErr` outcome with the store
untouched; a read failure is likewise not retried but aborts by panic
(`panicked`) rather than being returned. -/
theorem nonconflict_failures_immediate (op : Deployment → Deployment) (s : Store)
    (e : String) (rest : List Interference) :
    deploy op s (Interference.updateFail e :: rest) = (DeployOutcome.storeErr e, s)
    ∧ deploy op s (Interference.getFail e :: rest) = (DeployOutcome.panicked e, s) :=
  ⟨rfl, rfl⟩

/-- C4: a conflict on every one of the `retryBudget` attempts yields the
conflict-exhausted error, while any run of fewer conflicts followed by a
quiet attempt commits, applying the transform exactly once to the
then-latest descriptor and bumping the version exactly once beyond the
concurrent writes. -/
theorem conflict_retry_bounded :
    (∀ (op : Deployment → Deployment) (s : Store) (ds : List Deployment)
      (rest : List Interference),
      retryBudget ≤ ds.length →
      (deploy op s (ds.map Interference.write ++ rest)).fst
        = DeployOutcome.conflictExhausted)
    ∧ ∀ (op : Deployment → Deployment) (s : Store) (ds : List Deployment)
      (rest : List Interference),
      ds.length < retryBudget →
      deploy op s (ds.map Interference.write ++ Interference.quiet :: rest)
        = (DeployOutcome.ok, ⟨op (ds.getLastD s.dep), s.version + ds.length + 1⟩) :=
  ⟨fun op s ds rest h =>
      deployLoop_conflicts_exhausted op ds retryBudget s rest (by decide) h,
    fun op s ds rest h => deployLoop_conflicts_ok op ds retryBudget s rest h⟩

/-- C4, witness: five straight conflicts exhaust the budget; four
conflicts then a quiet attempt commit the transform against the latest
descriptor. -/
theorem conflict_retry_bounded_witness :
    ((deploy (setImage "a") redisStore
        ((List.replicate 5 redisDeployment).map Interference.write ++ [])).fst
      = DeployOutcome.conflictExhausted)
    ∧ deploy (setImage "a") redisStore
        ((List.replicate 4 redisDeployment).map Interference.write
          ++ Interference.quiet :: [])
      = (DeployOutcome.ok,
          ⟨setImage "a" ((List.replicate 4 redisDeployment).getLastD redisStore.dep),
            redisStore.version + (List.replicate 4 redisDeployment).length + 1⟩) :=
  ⟨conflict_retry_bounded.1 (setImage "a") redisStore
      (List.replicate 5 redisDeployment) [] (by decide),
    conflict_retry_bounded.2 (setImage "a") redisStore
      (List.replicate 4 redisDeployment) [] (by decide)⟩

/-- C5: an observer error on a tick before the deadline only continues the
loop, and the wait returns `timeout` exactly when the deadline passes with
every poll up to and including the first one past it (errors included)
unconverged. -/
theorem observer_error_tolerated_timeout_iff :
    (∀ (d i now : Nat) (e : String) (rest : List (Except String (List Pod))),
      now + i ≤ d →
      waitLoop d i now (Except.error e :: rest) = waitLoop d i (now + i) rest)
    ∧ ∀ obs : List (Except String (List Pod)),
      ((∃ t, waitForPodContainersRunning obs = some (WaitResult.timeout, t)) ↔
        ∃ k, k < obs.length
          ∧ ((obs.take (k + 1)).all fun r => !(podContainersRunning r).fst) = true
          ∧ k * deployRunningCheckInterval ≤ deployRunningThreshold
          ∧ deployRunningThreshold < (k + 1) * deployRunningCheckInterval) :=
  ⟨waitLoop_error_step, fun obs => by
    have h := waitLoop_timeout_iff deployRunningThreshold deployRunningCheckInterval
      obs 0 (Nat.zero_le _)
    simpa [waitForPodContainersRunning] using h⟩

/-- C5, witness: the error-tolerance part at a concrete early error. -/
theorem observer_error_tolerated_timeout_iff_witness :
    2 + 2 ≤ 10
    ∧ waitLoop 10 2 2 [Except.error "x", Except.ok [podReady]]
      = waitLoop 10 2 (2 + 2) [Except.ok [podReady]] :=
  ⟨by decide,
    observer_error_tolerated_timeout_iff.1 10 2 2 "x" [Except.ok [podReady]] (by decide)⟩

/-- C6: when the first `Get` succeeds and the baseline pre-check does not
report every instance healthy, `main` aborts before any mutation: the
precondition-failed outcome is returned, the mutator is never invoked, and
the desired-state record is unchanged. -/
theorem precheck_fail_aborts (s0 : Store) (env : Env)
    (hget : env.getFailure = none)
    (hpre : ((podContainersRunning env.precheckObs).fst
        && (podContainersRunning env.precheckObs).snd.isNone) = false) :
    mainRun s0 env = ⟨Outcome.preconditionFailed, s0, 0⟩ := by
  unfold mainRun
  rw [hget]
  simp [hpre]

/-- C6, witness: spec scenario D, one of two instances unready at the
pre-check. -/
theorem precheck_fail_aborts_witness :
    ((podContainersRunning envPrecheckFail.precheckObs).fst
        && (podContainersRunning envPrecheckFail.precheckObs).snd.isNone) = false
    ∧ mainRun redisStore envPrecheckFail
      = ⟨Outcome.preconditionFailed, redisStore, 0⟩ :=
  ⟨by decide, precheck_fail_aborts redisStore envPrecheckFail rfl (by decide)⟩

/-- C7: on any descriptor with at least one container template, the
transform shape used by both rollout mutations rewrites only the first
container's image: metadata, replica count, template labels, the remaining
containers, and the first container's other fields are all unchanged. -/
theorem setImage_frame (d : Deployment) (img : String) (c : Container)
    (rest : List Container)
    (h : d.spec.template.spec.containers = c :: rest) :
    (setImage img d).metadata = d.metadata
    ∧ (setImage img d).spec.replicas = d.spec.replicas
    ∧ (setImage img d).spec.template.labels = d.spec.template.labels
    ∧ (setImage img d).spec.template.spec.containers = { c with image := img } :: rest
    ∧ ({ c with image := img } : Container).name = c.name
    ∧ ({ c with image := img } : Container).ports = c.ports := by
  simp [setImage, h]

/-- C7, witness: the frame property at the `redis.yml` deployment. -/
theorem setImage_frame_witness :
    redisDeployment.spec.template.spec.containers = redisContainer :: []
    ∧ (setImage newImage redisDeployment).metadata = redisDeployment.metadata
    ∧ (setImage newImage redisDeployment).spec.replicas = redisDeployment.spec.replicas
    ∧ (setImage newImage redisDeployment).spec.template.labels
      = redisDeployment.spec.template.labels
    ∧ (setImage newImage redisDeployment).spec.template.spec.containers
      = { redisContainer with image := newImage } :: []
    ∧ ({ redisContainer with image := newImage } : Container).name = redisContainer.name
    ∧ ({ redisContainer with image := newImage } : Container).ports
      = redisContainer.ports :=
  ⟨rfl, setImage_frame redisDeployment newImage redisContainer [] rfl⟩

/-- C8: whenever the rollout reaches the rollback mutation and that
mutation commits within the retry budget (after any sequence of concurrent
writes), the first container image of the final desired state equals the
first container image read in the initial snapshot: the rollback
round-trips the image to its pre-rollout value. -/
theorem rollback_restores_image (s0 : Store) (env : Env) (s1 : Store)
    (r : WaitResult) (t : Nat) (c0 : Container) (cs0 : List Container)
    (ds : List Deployment) (rest : List Interference)
    (c : Container) (cs : List Container)
    (hget : env.getFailure = none)
    (hpre : podContainersRunning env.precheckObs = (true, none))
    (hfd : deploy (setImage newImage) s0 env.forwardScript = (DeployOutcome.ok, s1))
    (hw : waitForPodContainersRunning env.forwardObs = some (r, t))
    (hrb : env.rollbackScript = ds.map Interference.write ++ Interference.quiet :: rest)
    (hlen : ds.length < retryBudget)
    (h0 : s0.dep.spec.template.spec.containers = c0 :: cs0)
    (hlatest : (ds.getLastD s1.dep).spec.template.spec.containers = c :: cs) :
    containerImage0 (mainRun s0 env).store.dep = containerImage0 s0.dep := by
  have hdep : deploy (setImage ((containerImage0 s0.dep).getD "")) s1 env.rollbackScript
      = (DeployOutcome.ok,
          ⟨setImage ((containerImage0 s0.dep).getD "") (ds.getLastD s1.dep),
            s1.version + ds.length + 1⟩) := by
    rw [hrb]
    exact deployLoop_conflicts_ok _ ds retryBudget s1 rest hlen
  have himg : containerImage0
      (setImage ((containerImage0 s0.dep).getD "") (ds.getLastD s1.dep))
      = containerImage0 s0.dep := by
    rw [containerImage0_setImage _ _ c cs hlatest]
    simp [containerImage0, h0]
  unfold mainRun
  rw [hget]
  simp only [hpre, hfd, hw, hdep, Option.isNone_none, Bool.and_true, if_true]
  rcases hw2 : waitForPodContainersRunning env.rollbackObs with - | ⟨r2, t2⟩
  · simpa [hw2] using himg
  · cases r2 <;> simpa [hw2] using himg

/-- C8, witness: the round-trip at the `redis.yml` store with a quiet
rollback commit. -/
theorem rollback_restores_image_witness :
    containerImage0 (mainRun redisStore envRollbackQuiet).store.dep
      = containerImage0 redisStore.dep :=
  rollback_restores_image redisStore envRollbackQuiet
    ⟨setImage newImage redisDeployment, 1⟩ WaitResult.success 2
    redisContainer [] [] [] ⟨"redis", newImage, [6379]⟩ []
    rfl (by decide) (by decide) (by decide) rfl (by decide) rfl (by decide)

/-- C9: when the very first poll observes every instance ready, the wait
returns success with exactly one poll interval elapsed. -/
theorem ready_first_poll_success (pods : List Pod)
    (rest : List (Except String (List Pod)))
    (h : (pods.all fun p => p.containerStatuses.all fun st => st.ready) = true) :
    waitForPodContainersRunning (Except.ok pods :: rest)
      = some (WaitResult.success, deployRunningCheckInterval) := by
  simp [waitForPodContainersRunning, waitLoop, podContainersRunning, h,
    deployRunningCheckInterval]

/-- C9, witness: one ready pod on the first poll. -/
theorem ready_first_poll_success_witness :
    (([podReady] : List Pod).all fun p =>
        p.containerStatuses.all fun st => st.ready) = true
    ∧ waitForPodContainersRunning [Except.ok [podReady]]
      = some (WaitResult.success, deployRunningCheckInterval) :=
  ⟨by decide, ready_first_poll_success [podReady] [] (by decide)⟩

/-- C10: the readiness check precedes the deadline check, so a first
all-ready observation on the poll after the deadline still returns
success: five unready polls exhaust the 10-second threshold, and the sixth
poll at 12 seconds — past the deadline — returns success, not timeout. -/
theorem convergence_success_after_deadline :
    waitForPodContainersRunning
        (List.replicate 5 (Except.ok [podNotReady]) ++ [Except.ok [podReady]])
      = some (WaitResult.success, 12)
    ∧ deployRunningThreshold < 12 := by
  constructor
  · decide
  · decide

end Deploy
